import Mathlib

/-!
Shallow embedding of `guerrillamail.py` (python-guerrillamail).

The embedding follows the source file section by section:
* the `UTC` tzinfo and the `Mail` record with its `from_response` factory
  and `time` property (lines 37-100);
* the `GuerrillaMailSession` state machine: `_update_session_state`,
  `_scrub_state`, `is_expired`, `_delegate_to_client`, `_renew_session`,
  `_ensure_valid_session`, `get_email_list`, `get_email`, `forget_me`
  (lines 103-190);
* the `GuerrillaMailClient.get_email` not-found check (lines 233-238).

Remote interaction is modelled by an oracle `Client : RemoteCall → ResponseData`
giving the JSON object the remote service answers to each call; the current
wall-clock second (`int(time())`) is an explicit `current_time : Int` argument.
-/

/-- The only `tzinfo` instances appearing in the source: the `UTC` singleton
`utc` (guerrillamail.py lines 37-50). -/
inductive TZInfo
  | utc
  deriving DecidableEq, Repr

/-- A Python `datetime`, abstracted as seconds since the Unix epoch plus an
optional tzinfo (`none` models a naive datetime). -/
structure PyDateTime where
  epochSeconds : Int
  tzinfo : Option TZInfo := none
  deriving DecidableEq, Repr

/-- A Python `time` (time-of-day), with an optional tzinfo. -/
structure PyTime where
  secondsOfDay : Int
  tzinfo : Option TZInfo := none
  deriving DecidableEq, Repr

/-- Python `datetime.time()`: the time-of-day of the instant, always naive
(the tzinfo is dropped). -/
def PyDateTime.time (d : PyDateTime) : PyTime :=
  { secondsOfDay := d.epochSeconds % 86400, tzinfo := none }

/-- Python `datetime.replace(tzinfo=tz)`. -/
def PyDateTime.replace_tzinfo (d : PyDateTime) (tz : Option TZInfo) : PyDateTime :=
  { d with tzinfo := tz }

/-- Python `time.replace(tzinfo=tz)`. -/
def PyTime.replace_tzinfo (t : PyTime) (tz : Option TZInfo) : PyTime :=
  { t with tzinfo := tz }

/-- Python `datetime.utcfromtimestamp(x)`: a naive datetime for the given
epoch second. -/
def datetime_utcfromtimestamp (x : Int) : PyDateTime :=
  { epochSeconds := x, tzinfo := none }

/-- The value bound to the `read` attribute of `Mail`: the constructor default
is the Python bool `False`, while `from_response` stores `int(mail_read)`.
The two Python types are kept apart. -/
inductive ReadFlag
  | ofBool (b : Bool)
  | ofInt (n : Int)
  deriving DecidableEq, Repr

/-- The `Mail` record (guerrillamail.py lines 68-100), fields as set by
`Mail.__init__`. -/
structure Mail where
  guid : Option String
  subject : Option String
  sender : Option String
  datetime : Option PyDateTime
  read : ReadFlag
  exerpt : Option String
  excerpt : Option String
  body : Option String
  deriving DecidableEq, Repr

/-- `Mail.__init__` (guerrillamail.py lines 86-96), arguments in signature
order. The `exerpt` argument is accepted but ignored: the attribute is
unconditionally set to `None` ("legacy broken `exerpt` property maintained for
backwards compatibility"). -/
def Mail.init (guid subject sender : Option String) (datetime : Option PyDateTime)
    (read : ReadFlag) (exerpt excerpt body : Option String) : Mail :=
  { guid := guid
    subject := subject
    sender := sender
    datetime := datetime
    read := read
    exerpt := none
    excerpt := excerpt
    body := body }

/-- The `mail_*` keys a Guerrillamail response dict may carry, each `none` when
the key is absent. `mail_timestamp` is the already-parsed integer second
(`int(x)` of the decimal string the service sends); `mail_read` likewise
(`int` transform). `mail_exerpt` is a key no mapping of `from_response`
mentions; it is carried here to show it is ignored. -/
structure MailResponse where
  mail_id : Option String := none
  mail_subject : Option String := none
  mail_from : Option String := none
  mail_timestamp : Option Int := none
  mail_read : Option Int := none
  mail_excerpt : Option String := none
  mail_body : Option String := none
  mail_exerpt : Option String := none
  deriving DecidableEq, Repr

/-- `Mail.from_response` (guerrillamail.py lines 69-84). `_transform_dict`
(lines 58-65) builds the kwargs dict: a target key is present exactly when its
source key is present (the `KeyError` of a missing key is swallowed), with the
per-field transform applied. Missing kwargs then take the `Mail.__init__`
defaults: `guid=None, subject=None, sender=None, datetime=None, read=False,
excerpt=None, body=None`. The timestamp transform is
`datetime.utcfromtimestamp(int(x)).replace(tzinfo=utc)`. -/
def Mail.from_response (rd : MailResponse) : Mail :=
  Mail.init
    rd.mail_id
    rd.mail_subject
    rd.mail_from
    (rd.mail_timestamp.map fun x =>
      (datetime_utcfromtimestamp x).replace_tzinfo (some TZInfo.utc))
    (match rd.mail_read with
      | some n => ReadFlag.ofInt n
      | none => ReadFlag.ofBool false)
    none
    rd.mail_excerpt
    rd.mail_body

/-- The `Mail.time` property (guerrillamail.py lines 98-100):
`self.datetime.time().replace(tzinfo=self.datetime.tzinfo) if self.datetime
else None`. -/
def Mail.time (m : Mail) : Option PyTime :=
  match m.datetime with
  | some d => some (d.time.replace_tzinfo d.tzinfo)
  | none => none

/-- `GuerrillaMailException` (guerrillamail.py lines 53-55). -/
structure GuerrillaMailException where
  message : String
  deriving DecidableEq, Repr

/-- The mutable fields of `GuerrillaMailSession` (guerrillamail.py lines
112-116). `email_timestamp` is `some 0` at construction (`email_timestamp=0`
default) and `none` only after `_scrub_state` sets it to Python `None`. -/
structure SessionState where
  session_id : Option String
  email_address : Option String
  email_timestamp : Option Int
  deriving DecidableEq, Repr

/-- A remote call the session can delegate to `GuerrillaMailClient`, with the
operation-specific arguments the session passes. -/
inductive RemoteCall
  | set_email_address (address_local_part : String)
  | get_email_address
  | get_email_list (offset : Int)
  | get_email (email_id : String)
  | del_email (email_idx : String)
  | forget_me (email_address : Option String)
  deriving DecidableEq, Repr

/-- The session-relevant content of a JSON object the remote service returns:
the three session fields (each `none` when the key is absent), the `list` key
of a `get_email_list` response (holding the raw mail summaries), and the
`mail_*` keys of a `fetch_email` response, grouped in `mail`. -/
structure ResponseData where
  sid_token : Option String := none
  email_addr : Option String := none
  email_timestamp : Option Int := none
  list : Option (List MailResponse) := none
  mail : MailResponse := {}
  deriving DecidableEq, Repr

/-- An oracle giving the JSON object the remote service answers to each call. -/
def Client := RemoteCall → ResponseData

/-- Python truthiness of an optional string: `None` and `""` are falsy. -/
def truthyStr : Option String → Bool
  | none => false
  | some s => !(s == "")

/-- `SESSION_TIMEOUT_SECONDS` (guerrillamail.py line 103). -/
def SESSION_TIMEOUT_SECONDS : Int := 3600

/-- `GuerrillaMailSession._update_session_state` (guerrillamail.py lines
118-130): each of the three fields is assigned the response value when the key
is present; the `KeyError` of an absent key is swallowed, leaving the field
unchanged. -/
def SessionState.update_session_state (st : SessionState) (response_data : ResponseData) :
    SessionState :=
  { session_id :=
      match response_data.sid_token with
      | some v => some v
      | none => st.session_id
    email_address :=
      match response_data.email_addr with
      | some v => some v
      | none => st.email_address
    email_timestamp :=
      match response_data.email_timestamp with
      | some v => some v
      | none => st.email_timestamp }

/-- `GuerrillaMailSession._scrub_state` (guerrillamail.py lines 132-135): all
three fields are set to Python `None`. -/
def SessionState.scrub_state (_st : SessionState) : SessionState :=
  { session_id := none, email_address := none, email_timestamp := none }

/-- `GuerrillaMailSession.is_expired` (guerrillamail.py lines 137-140):
`current_time >= self.email_timestamp + SESSION_TIMEOUT_SECONDS - 5`, with
`current_time = int(time())` passed explicitly. In the source
`email_timestamp` is an integer except after `_scrub_state`, where it is
`None` and the addition would raise `TypeError`; `getD 0` keeps this embedding
total, and every theorem touching that corner carries a hypothesis excluding
it. -/
def SessionState.is_expired (st : SessionState) (current_time : Int) : Bool :=
  let expiry_time := st.email_timestamp.getD 0 + SESSION_TIMEOUT_SECONDS - 5
  decide (current_time ≥ expiry_time)

/-- `GuerrillaMailSession._delegate_to_client` (guerrillamail.py lines
142-152): issue the call, then scrub state for `forget_me`, leave state
untouched for `del_email`, and apply `_update_session_state` to the response
for every other method. Returns the new state and the response. -/
def delegate_to_client (client : Client) (st : SessionState) (call : RemoteCall) :
    SessionState × ResponseData :=
  let response_data := client call
  match call with
  | RemoteCall.forget_me _ => (st.scrub_state, response_data)
  | RemoteCall.del_email _ => (st, response_data)
  | _ => (st.update_session_state response_data, response_data)

/-- The call `GuerrillaMailSession._renew_session` (guerrillamail.py lines
163-167) delegates: `if self.email_address:` (Python truthiness, so `None` and
`""` both take the else branch) re-issue `set_email_address` with the address
on record, else issue `get_email_address`. -/
def renew_session_call (st : SessionState) : RemoteCall :=
  match st.email_address with
  | some a =>
      if a = "" then RemoteCall.get_email_address else RemoteCall.set_email_address a
  | none => RemoteCall.get_email_address

/-- `GuerrillaMailSession._renew_session`: delegate the renewal call; returns
the new state and the call issued. -/
def renew_session (client : Client) (st : SessionState) : SessionState × RemoteCall :=
  let call := renew_session_call st
  ((delegate_to_client client st call).1, call)

/-- The renewal trigger of `_ensure_valid_session` (guerrillamail.py line 170):
`self.session_id is None or self.is_expired() or fully_populate and not
self.email_address` (Python gives `and` the tighter binding). -/
def SessionState.needs_renewal (st : SessionState) (current_time : Int)
    (fully_populate : Bool) : Bool :=
  st.session_id.isNone || st.is_expired current_time ||
    (fully_populate && !(truthyStr st.email_address))

/-- `GuerrillaMailSession._ensure_valid_session` (guerrillamail.py lines
169-173): renew when the trigger holds, then raise
`GuerrillaMailException('Failed to obtain session id')` when `session_id` is
still `None`. Returns the new state and the list of remote calls issued. -/
def ensure_valid_session (client : Client) (current_time : Int) (fully_populate : Bool)
    (st : SessionState) : Except GuerrillaMailException (SessionState × List RemoteCall) :=
  let renewed :=
    if st.needs_renewal current_time fully_populate then
      let r := renew_session client st
      (r.1, [r.2])
    else (st, ([] : List RemoteCall))
  if renewed.1.session_id.isNone then
    Except.error { message := "Failed to obtain session id" }
  else
    Except.ok renewed

/-- `GuerrillaMailSession.get_email_list` (guerrillamail.py lines 175-179):
ensure a valid session, delegate `get_email_list`, read the `list` key with
`.get` (None when absent), and return `[Mail.from_response(e) for e in
email_list] if email_list else []` — a falsy (absent or empty) list yields
`[]`. -/
def session_get_email_list (client : Client) (current_time : Int) (st : SessionState)
    (offset : Int) : Except GuerrillaMailException (SessionState × List Mail) :=
  match ensure_valid_session client current_time false st with
  | Except.error e => Except.error e
  | Except.ok (st1, _) =>
    let d := delegate_to_client client st1 (RemoteCall.get_email_list offset)
    let mails :=
      match d.2.list with
      | some l => if l.isEmpty then [] else l.map Mail.from_response
      | none => []
    Except.ok (d.1, mails)

/-- `GuerrillaMailClient.get_email` (guerrillamail.py lines 233-238). The
`raw` argument is what `_do_request` returned for the `fetch_email` call:
`none` models a falsy body (empty response body parsed to `None`, the JSON
literal `false`, or an empty object), `some rd` a truthy JSON object. A falsy
body raises `GuerrillaMailException('Not found: ' + str(email_id))`. -/
def client_get_email (email_id : String) (raw : Option ResponseData) :
    Except GuerrillaMailException ResponseData :=
  match raw with
  | none => Except.error { message := "Not found: " ++ email_id }
  | some rd => Except.ok rd

/-- `GuerrillaMailSession.get_email` (guerrillamail.py lines 181-183): ensure
a valid session, delegate `get_email` (the client raises the not-found error
before `_update_session_state` runs, so the error propagates with no state
update; on success the session state absorbs the response), and map the
response through `Mail.from_response`. `raw_fetch` is what `_do_request`
returned for the `fetch_email` call. -/
def session_get_email (client : Client) (raw_fetch : Option ResponseData)
    (current_time : Int) (st : SessionState) (email_id : String) :
    Except GuerrillaMailException (SessionState × Mail) :=
  match ensure_valid_session client current_time false st with
  | Except.error e => Except.error e
  | Except.ok (st1, _) =>
    match client_get_email email_id raw_fetch with
    | Except.error e => Except.error e
    | Except.ok response_data =>
      Except.ok (st1.update_session_state response_data,
        Mail.from_response response_data.mail)

/-- `GuerrillaMailSession.forget_me` (guerrillamail.py lines 189-190):
delegate the dedicated `forget_me` call with the address on record; the
delegate scrubs the session state. Returns the new state and the calls
issued. -/
def session_forget_me (client : Client) (st : SessionState) :
    SessionState × List RemoteCall :=
  let call := RemoteCall.forget_me st.email_address
  ((delegate_to_client client st call).1, [call])

/-- C5: `Mail.from_response` is total over missing keys: whenever a source
field is absent from the raw response, the corresponding `Mail` attribute
equals its documented default (`guid`/`subject`/`sender`/`datetime`/`excerpt`/
`body` absent, `read` the Python `False`), and construction never fails (the
embedding is a total function). -/
theorem c5_from_response_defaults (rd : MailResponse) :
    (rd.mail_id = none → (Mail.from_response rd).guid = none) ∧
    (rd.mail_subject = none → (Mail.from_response rd).subject = none) ∧
    (rd.mail_from = none → (Mail.from_response rd).sender = none) ∧
    (rd.mail_timestamp = none → (Mail.from_response rd).datetime = none) ∧
    (rd.mail_read = none → (Mail.from_response rd).read = ReadFlag.ofBool false) ∧
    (rd.mail_excerpt = none → (Mail.from_response rd).excerpt = none) ∧
    (rd.mail_body = none → (Mail.from_response rd).body = none) := by
  refine ⟨?_, ?_, ?_, ?_, ?_, ?_, ?_⟩ <;> intro h <;>
    simp [Mail.from_response, Mail.init, h]

/-- C5 witness: the all-absent response yields every default. -/
theorem c5_from_response_defaults_witness :
    (Mail.from_response {}).guid = none ∧
    (Mail.from_response {}).subject = none ∧
    (Mail.from_response {}).sender = none ∧
    (Mail.from_response {}).datetime = none ∧
    (Mail.from_response {}).read = ReadFlag.ofBool false ∧
    (Mail.from_response {}).excerpt = none ∧
    (Mail.from_response {}).body = none := by
  obtain ⟨h1, h2, h3, h4, h5, h6, h7⟩ := c5_from_response_defaults {}
  exact ⟨h1 rfl, h2 rfl, h3 rfl, h4 rfl, h5 rfl, h6 rfl, h7 rfl⟩

/-- C9: the `Mail.time` projection round-trips timezone awareness: a datetime
carrying the UTC marker yields a time-of-day carrying the UTC marker, a naive
datetime yields a naive time-of-day, and an absent datetime yields an absent
projection. -/
theorem c9_time_awareness (m : Mail) :
    (∀ d, m.datetime = some d → d.tzinfo = some TZInfo.utc →
      ∃ t, m.time = some t ∧ t.tzinfo = some TZInfo.utc) ∧
    (∀ d, m.datetime = some d → d.tzinfo = none →
      ∃ t, m.time = some t ∧ t.tzinfo = none) ∧
    (m.datetime = none → m.time = none) := by
  refine ⟨?_, ?_, ?_⟩
  · intro d hd htz
    exact ⟨d.time.replace_tzinfo d.tzinfo, by simp [Mail.time, hd], by simp [PyTime.replace_tzinfo, htz]⟩
  · intro d hd htz
    exact ⟨d.time.replace_tzinfo d.tzinfo, by simp [Mail.time, hd], by simp [PyTime.replace_tzinfo, htz]⟩
  · intro h
    simp [Mail.time, h]

/-- C9 witness: a UTC-aware mail (as produced by `from_response`), a naive
mail (direct construction), and a datetime-less mail, each at a concrete
timestamp. -/
theorem c9_time_awareness_witness :
    (∃ t, (Mail.from_response { mail_timestamp := some 1392459985 }).time = some t ∧
      t.tzinfo = some TZInfo.utc) ∧
    (∃ t, (Mail.init none none none (some { epochSeconds := 100 }) (ReadFlag.ofBool false)
      none none none).time = some t ∧ t.tzinfo = none) ∧
    (Mail.init none none none none (ReadFlag.ofBool false) none none none).time = none := by
  refine ⟨?_, ?_, ?_⟩
  · exact (c9_time_awareness _).1 _ rfl rfl
  · exact (c9_time_awareness _).2.1 _ rfl rfl
  · exact (c9_time_awareness _).2.2 rfl

/-- C10: the legacy misspelled `exerpt` attribute is always `None`: the
constructor ignores its `exerpt` argument, and `from_response` (which maps no
source key to it, ignoring even a raw `mail_exerpt` key) leaves it `None`. -/
theorem c10_exerpt_always_none :
    (∀ guid subject sender datetime read exerpt excerpt body,
      (Mail.init guid subject sender datetime read exerpt excerpt body).exerpt = none) ∧
    (∀ rd : MailResponse, (Mail.from_response rd).exerpt = none) := by
  constructor
  · intro guid subject sender datetime read exerpt excerpt body
    rfl
  · intro rd
    rfl

/-- C1 counterexample: the claim asserts `is_expired` is false at
`now = T + 3595`; at `T = 0` the code computes `3595 >= 0 + 3600 - 5`, which
is true. -/
theorem c1_expiry_claim_false_at_3595 :
    SessionState.is_expired
      { session_id := none, email_address := none, email_timestamp := some 0 } 3595 = true := by
  decide

/-- C1 (amended): for a session whose `email_timestamp` is `T`, `is_expired`
is false at `now = T + 3594` and true at `now = T + 3595` and `now = T + 3596`,
per the arithmetic `now >= T + 3600 - 5`. -/
theorem c1_expiry_boundary (sid addr : Option String) (T : Int) :
    SessionState.is_expired
      { session_id := sid, email_address := addr, email_timestamp := some T } (T + 3594) = false ∧
    SessionState.is_expired
      { session_id := sid, email_address := addr, email_timestamp := some T } (T + 3595) = true ∧
    SessionState.is_expired
      { session_id := sid, email_address := addr, email_timestamp := some T } (T + 3596) = true := by
  refine ⟨?_, ?_, ?_⟩ <;>
    simp [SessionState.is_expired, SESSION_TIMEOUT_SECONDS] <;> omega

/-- A remote that answers every call with the empty JSON object. -/
def clientNoToken : Client := fun _ => {}

/-- A remote that answers every call with a token, an address and a
timestamp. -/
def clientWithToken : Client := fun _ =>
  { sid_token := some "tok2", email_addr := some "abc@guerrillamail.com",
    email_timestamp := some 50 }

/-- A freshly constructed session: no token, no address, timestamp 0. -/
def freshState : SessionState :=
  { session_id := none, email_address := none, email_timestamp := some 0 }

/-- A session with an address on record. -/
def stateWithAddr : SessionState :=
  { session_id := some "tok1", email_address := some "bob@guerrillamail.com",
    email_timestamp := some 100 }

/-- C2: renewal with a mailbox address on record (a non-empty address, since
Python truthiness governs the branch) issues `set_email_address` with that
same address and never `get_email_address`; renewal with no address on record
(absent, or the falsy empty string) issues `get_email_address`. -/
theorem c2_renewal_policy (client : Client) (st : SessionState) :
    (∀ a, st.email_address = some a → a ≠ "" →
      (renew_session client st).2 = RemoteCall.set_email_address a) ∧
    (truthyStr st.email_address = false →
      (renew_session client st).2 = RemoteCall.get_email_address) := by
  constructor
  · intro a ha hne
    simp [renew_session, renew_session_call, ha, hne]
  · intro h
    cases hA : st.email_address with
    | none => simp [renew_session, renew_session_call, hA]
    | some a =>
      rw [hA] at h
      simp only [truthyStr, Bool.not_eq_false', beq_iff_eq] at h
      simp [renew_session, renew_session_call, hA, h]

/-- C2 witness: with an address on record renewal issues `set_email_address`
with that address; with no address on record it issues `get_email_address`. -/
theorem c2_renewal_policy_witness :
    (renew_session clientWithToken stateWithAddr).2 =
      RemoteCall.set_email_address "bob@guerrillamail.com" ∧
    (renew_session clientWithToken freshState).2 = RemoteCall.get_email_address := by
  constructor
  · exact (c2_renewal_policy clientWithToken stateWithAddr).1 "bob@guerrillamail.com"
      rfl (by decide)
  · exact (c2_renewal_policy clientWithToken freshState).2 (by decide)

/-- C3: on an invocation of `_ensure_valid_session` that triggers renewal, if
no session token is held after the renewal the invocation fails with
`GuerrillaMailException('Failed to obtain session id')`; if a token is held
after the check, no error is raised and the renewed state is returned. The
hypothesis `hts` excludes the sole corner the source cannot run: a held token
with a `None` timestamp, where `is_expired` would raise `TypeError` before any
renewal decision. -/
theorem c3_session_unavailable (client : Client) (current_time : Int)
    (fully_populate : Bool) (st : SessionState)
    (hts : ∀ s, st.session_id = some s → st.email_timestamp ≠ none)
    (h : st.needs_renewal current_time fully_populate = true) :
    ((renew_session client st).1.session_id = none →
      ensure_valid_session client current_time fully_populate st =
        Except.error { message := "Failed to obtain session id" }) ∧
    (∀ t, (renew_session client st).1.session_id = some t →
      ensure_valid_session client current_time fully_populate st =
        Except.ok ((renew_session client st).1, [(renew_session client st).2])) := by
  constructor
  · intro hnone
    simp [ensure_valid_session, h, hnone]
  · intro t ht
    simp [ensure_valid_session, h, ht]

/-- C3 witness: a fresh session renewed against a token-less remote fails with
the session-unavailable error; renewed against a token-bearing remote it
succeeds. -/
theorem c3_session_unavailable_witness :
    ensure_valid_session clientNoToken 0 false freshState =
      Except.error { message := "Failed to obtain session id" } ∧
    ensure_valid_session clientWithToken 0 false freshState =
      Except.ok ((renew_session clientWithToken freshState).1,
        [(renew_session clientWithToken freshState).2]) := by
  constructor
  · exact (c3_session_unavailable clientNoToken 0 false freshState
      (by intro s hs; simp [freshState] at hs) (by decide)).1 (by decide)
  · exact (c3_session_unavailable clientWithToken 0 false freshState
      (by intro s hs; simp [freshState] at hs) (by decide)).2 "tok2" (by decide)

/-- C4: frame condition of `_update_session_state`: each of `session_id`,
`email_address` and `email_timestamp` is set to the response value whenever
the corresponding key (`sid_token`, `email_addr`, `email_timestamp`) is
present, and is left unchanged (not cleared) whenever the key is absent. -/
theorem c4_update_session_state_frame (st : SessionState) (rd : ResponseData) :
    ((∀ v, rd.sid_token = some v →
        (st.update_session_state rd).session_id = some v) ∧
      (rd.sid_token = none →
        (st.update_session_state rd).session_id = st.session_id)) ∧
    ((∀ v, rd.email_addr = some v →
        (st.update_session_state rd).email_address = some v) ∧
      (rd.email_addr = none →
        (st.update_session_state rd).email_address = st.email_address)) ∧
    ((∀ v, rd.email_timestamp = some v →
        (st.update_session_state rd).email_timestamp = some v) ∧
      (rd.email_timestamp = none →
        (st.update_session_state rd).email_timestamp = st.email_timestamp)) := by
  refine ⟨⟨?_, ?_⟩, ⟨?_, ?_⟩, ⟨?_, ?_⟩⟩ <;> intro hv <;>
    first
    | (intro hp; simp [SessionState.update_session_state, hp])
    | simp [SessionState.update_session_state, hv]

/-- C4 witness: a response carrying only a token updates the token and leaves
the address and timestamp of the recorded session unchanged. -/
theorem c4_update_session_state_frame_witness :
    (stateWithAddr.update_session_state { sid_token := some "tok9" }).session_id =
      some "tok9" ∧
    (stateWithAddr.update_session_state { sid_token := some "tok9" }).email_address =
      stateWithAddr.email_address ∧
    (stateWithAddr.update_session_state { sid_token := some "tok9" }).email_timestamp =
      stateWithAddr.email_timestamp := by
  obtain ⟨⟨h1, _⟩, ⟨_, h2⟩, ⟨_, h3⟩⟩ :=
    c4_update_session_state_frame stateWithAddr { sid_token := some "tok9" }
  exact ⟨h1 "tok9" rfl, h2 rfl, h3 rfl⟩

/-- C6: once a valid session is ensured, `get_email` on the "no data" sentinel
response (falsy body) fails with the not-found error, whose message is the
requested id appended to a fixed prefix — so it contains the id — rather than
returning a `Mail`. -/
theorem c6_get_email_not_found (client : Client) (current_time : Int)
    (st : SessionState) (email_id : String) (st1 : SessionState)
    (calls : List RemoteCall)
    (h : ensure_valid_session client current_time false st = Except.ok (st1, calls)) :
    session_get_email client none current_time st email_id =
      Except.error { message := "Not found: " ++ email_id } ∧
    ∃ s, "Not found: " ++ email_id = s ++ email_id := by
  constructor
  · simp [session_get_email, h, client_get_email]
  · exact ⟨"Not found: ", rfl⟩

/-- C6 witness: a concrete id against a sentinel fetch response yields the
not-found error carrying that id. -/
theorem c6_get_email_not_found_witness :
    session_get_email clientWithToken none 0 freshState "mailid7" =
      Except.error { message := "Not found: mailid7" } :=
  (c6_get_email_not_found clientWithToken 0 freshState "mailid7"
    (renew_session clientWithToken freshState).1
    [(renew_session clientWithToken freshState).2] rfl).1

/-- A remote whose `get_email_list` response carries an empty `list`. -/
def clientEmptyList : Client := fun _ =>
  { sid_token := some "tok3", list := some [] }

/-- A raw mail summary for the list witness. -/
def mailResp1 : MailResponse :=
  { mail_id := some "1", mail_subject := some "hi", mail_read := some 0 }

/-- A remote whose `get_email_list` response carries one mail summary. -/
def clientOneMail : Client := fun _ =>
  { sid_token := some "tok3", list := some [mailResp1] }

/-- C7: once a valid session is ensured, `get_email_list` returns the empty
sequence both when the response lacks the `list` key and when the key holds an
empty sequence (never an error), and maps each raw entry through
`Mail.from_response` in order when the key holds a non-empty sequence. -/
theorem c7_get_email_list_empty_and_map (client : Client) (current_time : Int)
    (st : SessionState) (offset : Int) (st1 : SessionState)
    (calls : List RemoteCall)
    (h : ensure_valid_session client current_time false st = Except.ok (st1, calls)) :
    ((client (RemoteCall.get_email_list offset)).list = none →
      session_get_email_list client current_time st offset =
        Except.ok
          ((delegate_to_client client st1 (RemoteCall.get_email_list offset)).1, [])) ∧
    ((client (RemoteCall.get_email_list offset)).list = some [] →
      session_get_email_list client current_time st offset =
        Except.ok
          ((delegate_to_client client st1 (RemoteCall.get_email_list offset)).1, [])) ∧
    (∀ l, l ≠ [] → (client (RemoteCall.get_email_list offset)).list = some l →
      session_get_email_list client current_time st offset =
        Except.ok
          ((delegate_to_client client st1 (RemoteCall.get_email_list offset)).1,
            l.map Mail.from_response)) := by
  refine ⟨?_, ?_, ?_⟩
  · intro hl
    simp [session_get_email_list, h, delegate_to_client, hl]
  · intro hl
    simp [session_get_email_list, h, delegate_to_client, hl]
  · intro l hne hl
    cases l with
    | nil => exact absurd rfl hne
    | cons a as =>
      simp [session_get_email_list, h, delegate_to_client, hl]

/-- C7 witness: a response without the `list` key, one with an empty list, and
one with a single summary, each against a concrete fresh session. -/
theorem c7_get_email_list_witness :
    session_get_email_list clientWithToken 0 freshState 0 =
      Except.ok ((delegate_to_client clientWithToken
        (renew_session clientWithToken freshState).1 (RemoteCall.get_email_list 0)).1, []) ∧
    session_get_email_list clientEmptyList 0 freshState 0 =
      Except.ok ((delegate_to_client clientEmptyList
        (renew_session clientEmptyList freshState).1 (RemoteCall.get_email_list 0)).1, []) ∧
    session_get_email_list clientOneMail 0 freshState 0 =
      Except.ok ((delegate_to_client clientOneMail
        (renew_session clientOneMail freshState).1 (RemoteCall.get_email_list 0)).1,
        [Mail.from_response mailResp1]) := by
  refine ⟨?_, ?_, ?_⟩
  · exact (c7_get_email_list_empty_and_map clientWithToken 0 freshState 0
      (renew_session clientWithToken freshState).1
      [(renew_session clientWithToken freshState).2] rfl).1 rfl
  · exact (c7_get_email_list_empty_and_map clientEmptyList 0 freshState 0
      (renew_session clientEmptyList freshState).1
      [(renew_session clientEmptyList freshState).2] rfl).2.1 rfl
  · exact (c7_get_email_list_empty_and_map clientOneMail 0 freshState 0
      (renew_session clientOneMail freshState).1
      [(renew_session clientOneMail freshState).2] rfl).2.2 [mailResp1]
      (by decide) rfl

/-- C8 counterexample: the claim asserts the timestamp ends at its documented
default 0 after `forget_me`; at a concrete session the code leaves it `None`
(absent), not the integer 0. -/
theorem c8_timestamp_scrubbed_not_zero :
    ((session_forget_me clientWithToken stateWithAddr).1).email_timestamp ≠ some 0 := by
  decide

/-- C8 (amended): `forget_me` issues exactly the dedicated `forget_me` remote
call (with the address on record) and afterwards all three session fields are
cleared to `None`: no token, no address, and the timestamp absent (`None`,
not reset to the constructor default 0). -/
theorem c8_forget_me_clears_all (client : Client) (st : SessionState) :
    (session_forget_me client st).2 = [RemoteCall.forget_me st.email_address] ∧
    (session_forget_me client st).1.session_id = none ∧
    (session_forget_me client st).1.email_address = none ∧
    (session_forget_me client st).1.email_timestamp = none :=
  ⟨rfl, rfl, rfl, rfl⟩
